import Mathlib

/-!
Verification of the stepper-motor clock driver (clock.c).

The development embeds the two components of the program:
the Timer1 compare-match interrupt handler (the phase sequencer) and the
main-loop pushbutton arbiter, acting on the program's global state
(the uint16 tick counter timerTicks, the handler's static uint8 counter
two_bit_counter, the PORTB output register, and the shared
clock_direction / clock_rate variables).  Machine integers are modelled
as Nat with explicit reductions modulo 2^16 and 2^8 where the C types
can wrap.
-/

/-- Constant RATE_FAST from clock.c. -/
def RATE_FAST : Nat := 0

/-- Constant RATE_NORMAL from clock.c. -/
def RATE_NORMAL : Nat := 2

/-- Constant DIR_FWD from clock.c. -/
def DIR_FWD : Nat := 1

/-- Constant DIR_REV from clock.c. -/
def DIR_REV : Nat := 2

/-- Constant BUTTON_FAST_FWD (mask of input pin PB2) from clock.c. -/
def BUTTON_FAST_FWD : Nat := 0b00000100

/-- Constant BUTTON_FAST_REV (mask of input pin PB4) from clock.c. -/
def BUTTON_FAST_REV : Nat := 0b00010000

/-- Constant PB_INIT from clock.c. -/
def PB_INIT : Nat := 0x00

/-- Constant PB_PUP_INIT from clock.c. -/
def PB_PUP_INIT : Nat := 0b00010100

/-- Program state: the globals of clock.c together with the interrupt
handler's static counter and the PORTB output register. -/
structure ClockState where
  timerTicks : Nat
  two_bit_counter : Nat
  portB : Nat
  clock_direction : Nat
  clock_rate : Nat

/-- One invocation of ISR(TIMER1_COMPA_vect) from clock.c: increment the
uint16 timerTicks; if the result exceeds clock_rate, reset timerTicks to
0, write the low 2 bits of the current two_bit_counter into bits 0-1 of
PORTB (preserving bits 2-7 via the temp_port read-modify-write), and
then decrement (clock_direction = DIR_FWD) or increment (otherwise) the
uint8 two_bit_counter.  The portB field of the result is computed from
the pre-step two_bit_counter, exactly as in the C sequencing where the
port write happens before the counter update. -/
def isrStep (s : ClockState) : ClockState :=
  if s.clock_rate < (s.timerTicks + 1) % 65536 then
    { s with
      timerTicks := 0
      portB := (s.portB &&& 0b11111100) ||| (s.two_bit_counter &&& 0b00000011)
      two_bit_counter :=
        if s.clock_direction = DIR_FWD then (s.two_bit_counter + 255) % 256
        else (s.two_bit_counter + 1) % 256 }
  else
    { s with timerTicks := (s.timerTicks + 1) % 65536 }

/-- Iterate the interrupt handler n times. -/
def isrN : Nat → ClockState → ClockState
  | 0, s => s
  | n + 1, s => isrN n (isrStep s)

/-- Number of invocations, among the next n interrupt handler runs, in
which the compare branch fires (the incremented timerTicks exceeds
clock_rate), i.e. the number of phase transitions. -/
def transCount : Nat → ClockState → Nat
  | 0, _ => 0
  | n + 1, s =>
      (if s.clock_rate < (s.timerTicks + 1) % 65536 then 1 else 0) +
        transCount n (isrStep s)

/-- One iteration of the main-loop arbiter of clock.c: sample the PINB
input register and set clock_rate / clock_direction, with the
fast-forward button (active low) checked first, then fast-reverse,
otherwise the normal-forward default. -/
def arbiterStep (pinb : Nat) (s : ClockState) : ClockState :=
  if pinb &&& BUTTON_FAST_FWD = 0 then
    { s with clock_rate := RATE_FAST, clock_direction := DIR_FWD }
  else if pinb &&& BUTTON_FAST_REV = 0 then
    { s with clock_rate := RATE_FAST, clock_direction := DIR_REV }
  else
    { s with clock_rate := RATE_NORMAL, clock_direction := DIR_FWD }

/-- Initial state: the global initializers of clock.c (timerTicks = 0,
clock_direction = DIR_FWD, clock_rate = RATE_NORMAL), the handler's
static two_bit_counter = 0, and PORTB as written by ioinit
(PB_INIT | PB_PUP_INIT). -/
def initState : ClockState :=
  { timerTicks := 0
    two_bit_counter := 0
    portB := PB_INIT ||| PB_PUP_INIT
    clock_direction := DIR_FWD
    clock_rate := RATE_NORMAL }

/-- Concrete sequencer state used for claim C1: timerTicks = 2 so the
next invocation fires the compare branch, phase counter 0, PORTB = 20,
forward direction, normal rate threshold 2. -/
def c1State : ClockState :=
  { timerTicks := 2
    two_bit_counter := 0
    portB := 20
    clock_direction := DIR_FWD
    clock_rate := RATE_NORMAL }

/-- Concrete sequencer state used for claim C2: fast threshold 0 so
every invocation fires, phase counter 1, forward direction. -/
def c2State : ClockState :=
  { timerTicks := 0
    two_bit_counter := 1
    portB := 20
    clock_direction := DIR_FWD
    clock_rate := RATE_FAST }

/-- Pair of clock_rate and clock_direction values the arbiter can
produce: fast-forward, fast-reverse, or the normal-forward default. -/
def goodRateDir (s : ClockState) : Prop :=
  (s.clock_rate = RATE_FAST ∧ s.clock_direction = DIR_FWD) ∨
  (s.clock_rate = RATE_FAST ∧ s.clock_direction = DIR_REV) ∨
  (s.clock_rate = RATE_NORMAL ∧ s.clock_direction = DIR_FWD)

/-! Helper lemmas about the bit masks used by the handler. -/

lemma testBit_three (i : Nat) : Nat.testBit 3 i = decide (i < 2) := by
  have h : (3 : Nat) = 2 ^ 2 - 1 := by norm_num
  rw [h, Nat.testBit_two_pow_sub_one]

lemma testBit_252 (i : Nat) :
    Nat.testBit 252 i = (decide (i ≥ 2) && decide (i - 2 < 6)) := by
  have h : (252 : Nat) = (2 ^ 6 - 1) <<< 2 := by norm_num [Nat.shiftLeft_eq]
  rw [h, Nat.testBit_shiftLeft, Nat.testBit_two_pow_sub_one]

lemma mask_or_low (p c : Nat) : ((p &&& 252) ||| (c &&& 3)) &&& 3 = c &&& 3 := by
  apply Nat.eq_of_testBit_eq
  intro i
  rcases Nat.lt_or_ge i 2 with h | h
  · simp [Nat.testBit_or, Nat.testBit_and, testBit_three, testBit_252, h, Nat.not_le.mpr h]
  · simp [Nat.testBit_or, Nat.testBit_and, testBit_three, testBit_252, h, Nat.not_lt.mpr h]

lemma mask_or_high (p c : Nat) : ((p &&& 252) ||| (c &&& 3)) &&& 252 = p &&& 252 := by
  apply Nat.eq_of_testBit_eq
  intro i
  rcases Nat.lt_or_ge i 2 with h | h
  · simp [Nat.testBit_or, Nat.testBit_and, testBit_three, testBit_252, h, Nat.not_le.mpr h]
  · simp [Nat.testBit_or, Nat.testBit_and, testBit_three, testBit_252, h, Nat.not_lt.mpr h]

lemma and3_eq_mod (c : Nat) : c &&& 3 = c % 4 := by
  apply Nat.eq_of_testBit_eq
  intro i
  have h3 : (3 : Nat) = 2 ^ 2 - 1 := by norm_num
  have h4 : (4 : Nat) = 2 ^ 2 := by norm_num
  rw [h3, h4, Nat.testBit_and, Nat.testBit_two_pow_sub_one, Nat.testBit_mod_two_pow]
  cases Bool.decEq (decide (i < 2)) true with
  | isTrue h => simp [h]
  | isFalse h => simp_all [Bool.and_comm]

/-! Helper lemmas about the interrupt handler step. -/

lemma isrStep_fire (s : ClockState) (h : s.clock_rate < (s.timerTicks + 1) % 65536) :
    isrStep s =
      { s with
        timerTicks := 0
        portB := (s.portB &&& 252) ||| (s.two_bit_counter &&& 3)
        two_bit_counter :=
          if s.clock_direction = DIR_FWD then (s.two_bit_counter + 255) % 256
          else (s.two_bit_counter + 1) % 256 } := by
  unfold isrStep
  rw [if_pos h]

lemma isrStep_skip (s : ClockState) (h : ¬ s.clock_rate < (s.timerTicks + 1) % 65536) :
    isrStep s = { s with timerTicks := (s.timerTicks + 1) % 65536 } := by
  unfold isrStep
  rw [if_neg h]

lemma isrStep_rate (s : ClockState) : (isrStep s).clock_rate = s.clock_rate := by
  unfold isrStep
  split <;> rfl

lemma isrStep_dir (s : ClockState) : (isrStep s).clock_direction = s.clock_direction := by
  unfold isrStep
  split <;> rfl

lemma transCount_eq (T : Nat) (hT : T < 65535) :
    ∀ (n : Nat) (s : ClockState), s.clock_rate = T → s.timerTicks ≤ T →
      transCount n s = (n + s.timerTicks) / (T + 1) := by
  intro n
  induction n with
  | zero =>
      intro s hr ht
      have hlt : s.timerTicks < T + 1 := by omega
      simp [transCount, Nat.div_eq_of_lt hlt]
  | succ n ih =>
      intro s hr ht
      by_cases hfire : s.clock_rate < (s.timerTicks + 1) % 65536
      · have hmod : (s.timerTicks + 1) % 65536 = s.timerTicks + 1 :=
          Nat.mod_eq_of_lt (by omega)
        have htop : s.timerTicks = T := by omega
        rw [transCount, if_pos hfire, isrStep_fire s hfire]
        rw [ih _ (by simpa using hr) (by simp)]
        simp only [Nat.add_zero]
        have harr : n + 1 + s.timerTicks = n + (T + 1) := by omega
        rw [harr, Nat.add_div_right _ (by omega : 0 < T + 1)]
        omega
      · have hmod : (s.timerTicks + 1) % 65536 = s.timerTicks + 1 :=
          Nat.mod_eq_of_lt (by omega)
        have hle : s.timerTicks + 1 ≤ T := by omega
        rw [transCount, if_neg hfire, isrStep_skip s hfire]
        rw [ih _ (by simpa using hr) (by simpa [hmod] using hle)]
        simp only [hmod]
        have harr : n + 1 + s.timerTicks = n + (s.timerTicks + 1) := by omega
        rw [harr]
        exact Nat.zero_add _

lemma isrN_counter_lt (n : Nat) :
    ∀ s : ClockState, s.two_bit_counter < 256 → (isrN n s).two_bit_counter < 256 := by
  induction n with
  | zero => intro s h; exact h
  | succ n ih =>
      intro s h
      apply ih
      unfold isrStep
      split
      · split <;> exact Nat.mod_lt _ (by omega)
      · exact h

/-! Claim theorems. -/

/-- Claim C1, counterexample: at the state c1State the compare branch of
the next ISR invocation fires, yet on return PORTB's low 2 bits hold 0,
the pre-step phase, while the advanced (post-step) counter's low 2 bits
hold 3: the output bits do not equal the new phase value, because the
handler writes the port before advancing the counter. -/
theorem c1_counterexample :
    c1State.clock_rate < (c1State.timerTicks + 1) % 65536 ∧
    (isrStep c1State).portB &&& 3 = 0 ∧
    (isrStep c1State).two_bit_counter &&& 3 = 3 ∧
    ¬ ((isrStep c1State).portB &&& 3 = (isrStep c1State).two_bit_counter &&& 3) := by
  decide

/-- Claim C1, amended: on every ISR invocation whose incremented tick
counter exceeds the rate threshold, the handler resets the tick counter
to 0, writes the low 2 bits of the PRE-step phase counter to output
bits 0-1 (preserving bits 2-7), and only then advances the phase counter
by -1 mod 4 (forward) or +1 mod 4 (reverse): on return the two output
bits equal the old phase value, not the advanced one. -/
theorem c1_write_then_advance (s : ClockState)
    (h : s.clock_rate < (s.timerTicks + 1) % 65536) :
    (isrStep s).timerTicks = 0 ∧
    (isrStep s).portB &&& 3 = s.two_bit_counter &&& 3 ∧
    (isrStep s).portB &&& 252 = s.portB &&& 252 ∧
    (s.clock_direction = DIR_FWD →
      (isrStep s).two_bit_counter &&& 3 = ((s.two_bit_counter &&& 3) + 3) % 4) ∧
    (s.clock_direction = DIR_REV →
      (isrStep s).two_bit_counter &&& 3 = ((s.two_bit_counter &&& 3) + 1) % 4) := by
  have hf := isrStep_fire s h
  refine ⟨?_, ?_, ?_, ?_, ?_⟩
  · rw [hf]
  · rw [hf]
    exact mask_or_low _ _
  · rw [hf]
    exact mask_or_high _ _
  · intro hd
    rw [hf]
    show (if s.clock_direction = DIR_FWD then (s.two_bit_counter + 255) % 256
          else (s.two_bit_counter + 1) % 256) &&& 3 = ((s.two_bit_counter &&& 3) + 3) % 4
    rw [hd, if_pos rfl, and3_eq_mod, and3_eq_mod]
    omega
  · intro hd
    rw [hf]
    show (if s.clock_direction = DIR_FWD then (s.two_bit_counter + 255) % 256
          else (s.two_bit_counter + 1) % 256) &&& 3 = ((s.two_bit_counter &&& 3) + 1) % 4
    rw [hd, if_neg (by decide : ¬ (DIR_REV = DIR_FWD)), and3_eq_mod, and3_eq_mod]
    omega

/-- Claim C1, witness: the amended theorem applied at c1State, where the
compare branch fires. -/
theorem c1_witness :
    c1State.clock_rate < (c1State.timerTicks + 1) % 65536 ∧
    ((isrStep c1State).timerTicks = 0 ∧
     (isrStep c1State).portB &&& 3 = c1State.two_bit_counter &&& 3 ∧
     (isrStep c1State).portB &&& 252 = c1State.portB &&& 252 ∧
     (c1State.clock_direction = DIR_FWD →
       (isrStep c1State).two_bit_counter &&& 3 = ((c1State.two_bit_counter &&& 3) + 3) % 4) ∧
     (c1State.clock_direction = DIR_REV →
       (isrStep c1State).two_bit_counter &&& 3 = ((c1State.two_bit_counter &&& 3) + 1) % 4)) :=
  ⟨by decide, c1_write_then_advance c1State (by decide)⟩

/-- Claim C2: on an ISR invocation whose compare branch fires, the low
2 bits of the sequencer's phase counter step from v to (v - 1) mod 4,
written (v + 3) mod 4, under forward direction, and to (v + 1) mod 4
under reverse direction. -/
theorem c2_phase_step (s : ClockState)
    (h : s.clock_rate < (s.timerTicks + 1) % 65536) :
    (s.clock_direction = DIR_FWD →
      (isrStep s).two_bit_counter &&& 3 = ((s.two_bit_counter &&& 3) + 3) % 4) ∧
    (s.clock_direction = DIR_REV →
      (isrStep s).two_bit_counter &&& 3 = ((s.two_bit_counter &&& 3) + 1) % 4) := by
  have hf := isrStep_fire s h
  constructor
  · intro hd
    rw [hf]
    show (if s.clock_direction = DIR_FWD then (s.two_bit_counter + 255) % 256
          else (s.two_bit_counter + 1) % 256) &&& 3 = ((s.two_bit_counter &&& 3) + 3) % 4
    rw [hd, if_pos rfl, and3_eq_mod, and3_eq_mod]
    omega
  · intro hd
    rw [hf]
    show (if s.clock_direction = DIR_FWD then (s.two_bit_counter + 255) % 256
          else (s.two_bit_counter + 1) % 256) &&& 3 = ((s.two_bit_counter &&& 3) + 1) % 4
    rw [hd, if_neg (by decide : ¬ (DIR_REV = DIR_FWD)), and3_eq_mod, and3_eq_mod]
    omega

/-- Claim C2, witness: the phase-step theorem applied at c2State, where
the compare branch fires on the next invocation. -/
theorem c2_witness :
    c2State.clock_rate < (c2State.timerTicks + 1) % 65536 ∧
    ((c2State.clock_direction = DIR_FWD →
       (isrStep c2State).two_bit_counter &&& 3 = ((c2State.two_bit_counter &&& 3) + 3) % 4) ∧
     (c2State.clock_direction = DIR_REV →
       (isrStep c2State).two_bit_counter &&& 3 = ((c2State.two_bit_counter &&& 3) + 1) % 4)) :=
  ⟨by decide, c2_phase_step c2State (by decide)⟩

/-- Claim C3: starting with the tick counter at 0 and a constant rate
threshold T that is one of the program's thresholds (RATE_FAST = 0 or
RATE_NORMAL = 2), N consecutive ISR invocations fire exactly
N / (T + 1) phase transitions: one transition per T + 1 interrupts. -/
theorem c3_transitions_per_period (N : Nat) (s : ClockState)
    (hrate : s.clock_rate = RATE_FAST ∨ s.clock_rate = RATE_NORMAL)
    (h0 : s.timerTicks = 0) :
    transCount N s = N / (s.clock_rate + 1) := by
  have hT : s.clock_rate < 65535 := by
    rcases hrate with h | h <;> rw [h] <;> decide
  have h := transCount_eq s.clock_rate hT N s rfl (by omega)
  rw [h, h0, Nat.add_zero]

/-- Claim C3, witness: the transition-count theorem applied to the
initial state (threshold RATE_NORMAL = 2) over 9 invocations. -/
theorem c3_witness :
    (initState.clock_rate = RATE_FAST ∨ initState.clock_rate = RATE_NORMAL) ∧
    initState.timerTicks = 0 ∧
    transCount 9 initState = 9 / (initState.clock_rate + 1) :=
  ⟨Or.inr rfl, rfl, c3_transitions_per_period 9 initState (Or.inr rfl) rfl⟩

/-- Claim C4: from the initial state (tick counter 0, phase counter 0,
RATE_NORMAL threshold 2, forward direction), 9 consecutive ISR
invocations fire exactly 3 transitions, all decrements since the
direction stays forward, and the final phase counter's observable low
2 bits are (0 - 3) mod 4 = 1. -/
theorem c4_scenario_normal_forward :
    initState.timerTicks = 0 ∧ initState.two_bit_counter = 0 ∧
    initState.clock_rate = RATE_NORMAL ∧ initState.clock_direction = DIR_FWD ∧
    transCount 9 initState = 3 ∧
    (isrN 9 initState).clock_direction = DIR_FWD ∧
    (isrN 9 initState).two_bit_counter &&& 3 = 1 := by
  decide

/-- Claim C5, counterexample: after 3 ISR invocations from the initial
state the phase-counter variable two_bit_counter holds 255, which is
not in {0,1,2,3}: the uint8 variable wraps modulo 256, not modulo 4. -/
theorem c5_counterexample :
    (isrN 3 initState).two_bit_counter = 255 ∧
    ¬ ((isrN 3 initState).two_bit_counter = 0 ∨ (isrN 3 initState).two_bit_counter = 1 ∨
       (isrN 3 initState).two_bit_counter = 2 ∨ (isrN 3 initState).two_bit_counter = 3) := by
  decide

/-- Claim C5, amended: the phase-counter variable is an 8-bit value that
stays below 256 under every sequence of ISR invocations, and its
observable low 2 bits, the externally visible phase, are always in
{0,1,2,3}. -/
theorem c5_phase_in_range (n : Nat) (s : ClockState) (h : s.two_bit_counter < 256) :
    (isrN n s).two_bit_counter < 256 ∧
    ((isrN n s).two_bit_counter &&& 3 = 0 ∨ (isrN n s).two_bit_counter &&& 3 = 1 ∨
     (isrN n s).two_bit_counter &&& 3 = 2 ∨ (isrN n s).two_bit_counter &&& 3 = 3) := by
  refine ⟨isrN_counter_lt n s h, ?_⟩
  rw [and3_eq_mod]
  omega

/-- Claim C5, witness: the amended theorem applied to the initial state
over 3 invocations. -/
theorem c5_witness :
    initState.two_bit_counter < 256 ∧
    ((isrN 3 initState).two_bit_counter < 256 ∧
     ((isrN 3 initState).two_bit_counter &&& 3 = 0 ∨
      (isrN 3 initState).two_bit_counter &&& 3 = 1 ∨
      (isrN 3 initState).two_bit_counter &&& 3 = 2 ∨
      (isrN 3 initState).two_bit_counter &&& 3 = 3)) :=
  ⟨by decide, c5_phase_in_range 3 initState (by decide)⟩

/-- Claim C6: after any single ISR invocation, whatever the prior state
and in particular for either program threshold (RATE_FAST = 0 or
RATE_NORMAL = 2), the tick counter is strictly below the (unchanged)
rate threshold plus one: it is incremented once and reset to 0 whenever
it exceeds the threshold. -/
theorem c6_tick_counter_bounded (s : ClockState) :
    (isrStep s).timerTicks < (isrStep s).clock_rate + 1 := by
  rw [isrStep_rate]
  unfold isrStep
  split
  next h => exact Nat.succ_pos _
  next h => exact Nat.lt_succ_of_le (Nat.not_lt.mp h)

/-- Claim C7: every ISR invocation leaves bits 2-7 of PORTB unchanged,
and when the compare branch does not fire (the incremented tick counter
stays at or below the threshold) PORTB is not written at all. -/
theorem c7_port_frame (s : ClockState) :
    (isrStep s).portB &&& 252 = s.portB &&& 252 ∧
    ((s.timerTicks + 1) % 65536 ≤ s.clock_rate → (isrStep s).portB = s.portB) := by
  constructor
  · unfold isrStep
    split
    next h => exact mask_or_high s.portB s.two_bit_counter
    next h => rfl
  · intro h
    rw [isrStep_skip s (by omega)]

/-- Claim C7, witness: the frame theorem applied to the initial state,
where the first invocation does not fire the compare branch. -/
theorem c7_witness :
    (isrStep initState).portB &&& 252 = initState.portB &&& 252 ∧
    (isrStep initState).portB = initState.portB :=
  ⟨(c7_port_frame initState).1, (c7_port_frame initState).2 (by decide)⟩

/-- Claim C8: when both pushbutton inputs read asserted (active low,
masked bit = 0), one arbiter iteration sets clock_rate to RATE_FAST and
clock_direction to DIR_FWD, regardless of the prior state: forward wins
the tie-break because its branch is checked first. -/
theorem c8_forward_wins (pinb : Nat) (s : ClockState)
    (hf : pinb &&& BUTTON_FAST_FWD = 0) (_hr : pinb &&& BUTTON_FAST_REV = 0) :
    (arbiterStep pinb s).clock_rate = RATE_FAST ∧
    (arbiterStep pinb s).clock_direction = DIR_FWD := by
  unfold arbiterStep
  rw [if_pos hf]
  exact ⟨rfl, rfl⟩

/-- Claim C8, witness: the tie-break theorem applied with PINB = 0
(both buttons pressed) from the initial state. -/
theorem c8_witness :
    ((0 : Nat) &&& BUTTON_FAST_FWD = 0) ∧ ((0 : Nat) &&& BUTTON_FAST_REV = 0) ∧
    (arbiterStep 0 initState).clock_rate = RATE_FAST ∧
    (arbiterStep 0 initState).clock_direction = DIR_FWD :=
  ⟨by decide, by decide,
   (c8_forward_wins 0 initState (by decide) (by decide)).1,
   (c8_forward_wins 0 initState (by decide) (by decide)).2⟩

/-- Claim C9: when both pushbutton inputs read deasserted (masked bit
nonzero), one arbiter iteration sets clock_rate to RATE_NORMAL and
clock_direction to DIR_FWD, regardless of the prior values. -/
theorem c9_default_normal_forward (pinb : Nat) (s : ClockState)
    (hf : pinb &&& BUTTON_FAST_FWD ≠ 0) (hr : pinb &&& BUTTON_FAST_REV ≠ 0) :
    (arbiterStep pinb s).clock_rate = RATE_NORMAL ∧
    (arbiterStep pinb s).clock_direction = DIR_FWD := by
  unfold arbiterStep
  rw [if_neg hf, if_neg hr]
  exact ⟨rfl, rfl⟩

/-- Claim C9, witness: the default-law theorem applied with PINB = 20
(both input bits high) from a fast-reverse prior state. -/
theorem c9_witness :
    ((20 : Nat) &&& BUTTON_FAST_FWD ≠ 0) ∧ ((20 : Nat) &&& BUTTON_FAST_REV ≠ 0) ∧
    (arbiterStep 20 ⟨0, 0, 20, DIR_REV, RATE_FAST⟩).clock_rate = RATE_NORMAL ∧
    (arbiterStep 20 ⟨0, 0, 20, DIR_REV, RATE_FAST⟩).clock_direction = DIR_FWD :=
  ⟨by decide, by decide,
   (c9_default_normal_forward 20 ⟨0, 0, 20, DIR_REV, RATE_FAST⟩ (by decide) (by decide)).1,
   (c9_default_normal_forward 20 ⟨0, 0, 20, DIR_REV, RATE_FAST⟩ (by decide) (by decide)).2⟩

/-- Claim C10: the initial state satisfies the rate/direction pair
invariant; every arbiter iteration, from any prior state, produces one
of the three pairs (RATE_FAST, DIR_FWD), (RATE_FAST, DIR_REV),
(RATE_NORMAL, DIR_FWD); the ISR never writes clock_rate or
clock_direction; and under the invariant RATE_NORMAL implies DIR_FWD,
so the pair (RATE_NORMAL, DIR_REV) never occurs. -/
theorem c10_rate_dir_pairs :
    goodRateDir initState ∧
    (∀ (pinb : Nat) (s : ClockState), goodRateDir (arbiterStep pinb s)) ∧
    (∀ s : ClockState, (isrStep s).clock_rate = s.clock_rate ∧
      (isrStep s).clock_direction = s.clock_direction) ∧
    (∀ s : ClockState, goodRateDir s → s.clock_rate = RATE_NORMAL →
      s.clock_direction = DIR_FWD) := by
  refine ⟨Or.inr (Or.inr ⟨rfl, rfl⟩), ?_, ?_, ?_⟩
  · intro pinb s
    unfold arbiterStep goodRateDir
    by_cases h1 : pinb &&& BUTTON_FAST_FWD = 0
    · rw [if_pos h1]
      exact Or.inl ⟨rfl, rfl⟩
    · rw [if_neg h1]
      by_cases h2 : pinb &&& BUTTON_FAST_REV = 0
      · rw [if_pos h2]
        exact Or.inr (Or.inl ⟨rfl, rfl⟩)
      · rw [if_neg h2]
        exact Or.inr (Or.inr ⟨rfl, rfl⟩)
  · intro s
    exact ⟨isrStep_rate s, isrStep_dir s⟩
  · intro s hg hn
    rcases hg with ⟨h1, _⟩ | ⟨h1, _⟩ | ⟨_, h2⟩
    · rw [hn] at h1
      exact absurd h1 (by decide)
    · rw [hn] at h1
      exact absurd h1 (by decide)
    · exact h2

/-- Claim C10, witness: the invariant theorem instantiated at the
initial state, an arbiter iteration with both buttons released, and the
implication discharged at the initial state. -/
theorem c10_witness :
    goodRateDir initState ∧ goodRateDir (arbiterStep 20 initState) ∧
    (isrStep initState).clock_rate = initState.clock_rate ∧
    initState.clock_direction = DIR_FWD :=
  ⟨c10_rate_dir_pairs.1, c10_rate_dir_pairs.2.1 20 initState,
   (c10_rate_dir_pairs.2.2.1 initState).1,
   c10_rate_dir_pairs.2.2.2 initState c10_rate_dir_pairs.1 rfl⟩
